import Mathlib

/-!
Verification of the `hades` repository: a small operational test harness
(environment loader, config resolver, container controller, connectivity
checker, test runner).  Python strings are modelled as `List Char`, the
process environment as a function `List Char → Option (List Char)`, and
external effects (subprocess calls, the database wire protocol) as explicit
oracle worlds.  Each Python function named below is translated directly from
the corresponding source file.
-/

/-- Python strings, modelled as lists of characters. -/
abbrev Str := List Char

/-- The process environment (`os.environ`): a partial map from keys to values. -/
abbrev Env := Str → Option Str

/-- Python `str.strip()` applied from the left. -/
def pyStripL (l : Str) : Str := l.dropWhile Char.isWhitespace

/-- Python `str.strip()`: drop whitespace from both ends.
(Modelled with `Char.isWhitespace`.) -/
def pyStrip (l : Str) : Str := ((pyStripL l).reverse.dropWhile Char.isWhitespace).reverse

/-- Python `line.split("=", 1)`: split at the first `=`; `none` when the
line has no `=` (the `"=" not in line` guard in the source). -/
def splitFirstEq : Str → Option (Str × Str)
  | [] => none
  | c :: rest =>
    if c = '=' then some ([], rest)
    else
      match splitFirstEq rest with
      | none => none
      | some (k, v) => some (c :: k, v)

/-- The quote-stripping step of `load_env_file` (both copies):
`if (value.startswith('"') and value.endswith('"')) or (value.startswith("'")
and value.endswith("'")): value = value[1:-1]`.  On a one-character value the
single quote char is both the first and last character, so `[1:-1]` yields
the empty string. -/
def stripQuotes (v : Str) : Str :=
  if (v.head? = some '"' ∧ v.getLast? = some '"') ∨
     (v.head? = some '\'' ∧ v.getLast? = some '\'') then
    (v.drop 1).dropLast
  else v

/-- `os.environ[k] = v`. -/
def updEnv (env : Env) (k v : Str) : Env :=
  fun k' => if k' = k then some v else env k'

/-- One iteration of the `for line in f` loop of `load_env_file`
(`src/postgres/postgres-conn-test.py` lines 31-52 and
`src/test/test_cases/test_database_connection.py` lines 28-49):
strip the line, skip blanks, comments and lines without `=`, split at the
first `=`, strip key and value, strip one layer of quotes from the value,
and set the variable only when the key is non-empty and not already set. -/
def processLine (env : Env) (l : Str) : Env :=
  if pyStrip l = [] ∨ (pyStrip l).head? = some '#' then env
  else
    match splitFirstEq (pyStrip l) with
    | none => env
    | some (k0, v0) =>
      if pyStrip k0 ≠ [] ∧ env (pyStrip k0) = none then
        updEnv env (pyStrip k0) (stripQuotes (pyStrip v0))
      else env

/-- `load_env_file`: a missing file (`none`) is a silent no-op; otherwise the
lines are processed in order. -/
def loadEnvFile (file : Option (List Str)) (env : Env) : Env :=
  match file with
  | none => env
  | some lines => lines.foldl processLine env

/-- `processLine` never changes a key that already has a value. -/
theorem processLine_preserves (env : Env) (l k : Str) (v : Str)
    (h : env k = some v) : processLine env l k = some v := by
  unfold processLine
  by_cases h1 : pyStrip l = [] ∨ (pyStrip l).head? = some '#'
  · rw [if_pos h1]; exact h
  · rw [if_neg h1]
    rcases hsp : splitFirstEq (pyStrip l) with _ | ⟨k0, v0⟩
    · exact h
    · show (if pyStrip k0 ≠ [] ∧ env (pyStrip k0) = none then
          updEnv env (pyStrip k0) (stripQuotes (pyStrip v0)) else env) k = some v
      by_cases hg : pyStrip k0 ≠ [] ∧ env (pyStrip k0) = none
      · rw [if_pos hg]
        unfold updEnv
        by_cases heq : k = pyStrip k0
        · exfalso
          rw [heq, hg.2] at h
          exact Option.noConfusion h
        · simp only [if_neg heq]; exact h
      · rw [if_neg hg]; exact h

/-- If `processLine` changes the value at `k`, then `k` was absent and
non-empty beforehand. -/
theorem processLine_frame (env : Env) (l k : Str)
    (h : processLine env l k ≠ env k) : env k = none ∧ k ≠ [] := by
  unfold processLine at h
  by_cases h1 : pyStrip l = [] ∨ (pyStrip l).head? = some '#'
  · rw [if_pos h1] at h; exact absurd rfl h
  · rw [if_neg h1] at h
    rcases hsp : splitFirstEq (pyStrip l) with _ | ⟨k0, v0⟩
    · rw [hsp] at h; exact absurd rfl h
    · rw [hsp] at h
      replace h : (if pyStrip k0 ≠ [] ∧ env (pyStrip k0) = none then
          updEnv env (pyStrip k0) (stripQuotes (pyStrip v0)) else env) k ≠ env k := h
      by_cases hg : pyStrip k0 ≠ [] ∧ env (pyStrip k0) = none
      · rw [if_pos hg] at h
        unfold updEnv at h
        by_cases heq : k = pyStrip k0
        · exact ⟨heq ▸ hg.2, fun hnil => hg.1 (heq ▸ hnil)⟩
        · simp only [if_neg heq] at h; exact absurd rfl h
      · rw [if_neg hg] at h; exact absurd rfl h

/-- Folding `processLine` over any list of lines never changes a key that
already has a value. -/
theorem foldl_processLine_preserves (lines : List Str) (env : Env) (k : Str)
    (v : Str) (h : env k = some v) :
    (lines.foldl processLine env) k = some v := by
  induction lines generalizing env with
  | nil => exact h
  | cons l rest ih =>
    exact ih (processLine env l) (processLine_preserves env l k v h)

/-- If folding `processLine` changes the value at `k`, then `k` was absent
and non-empty in the starting environment. -/
theorem foldl_processLine_frame (lines : List Str) (env : Env) (k : Str)
    (h : (lines.foldl processLine env) k ≠ env k) : env k = none ∧ k ≠ [] := by
  induction lines generalizing env with
  | nil => exact absurd rfl h
  | cons l rest ih =>
    by_cases hstep : processLine env l k = env k
    · have h' : (rest.foldl processLine (processLine env l)) k ≠ (processLine env l) k := by
        intro hc
        exact h (hc.trans hstep)
      obtain ⟨hnone, hne⟩ := ih (processLine env l) h'
      exact ⟨hstep.symm.trans hnone, hne⟩
    · exact processLine_frame env l k hstep

/-- C2: keys present before loading are never changed; any key the loader
does change was absent at load time and non-empty.  (The loader therefore
mutates nothing else in the environment.) -/
theorem C2_env_loader_first_writer_wins (file : Option (List Str)) (env : Env)
    (k : Str) :
    (∀ v, env k = some v → loadEnvFile file env k = some v) ∧
    (loadEnvFile file env k ≠ env k → env k = none ∧ k ≠ []) := by
  constructor
  · intro v h
    cases file with
    | none => exact h
    | some lines => exact foldl_processLine_preserves lines env k v h
  · intro h
    cases file with
    | none => exact absurd rfl h
    | some lines => exact foldl_processLine_frame lines env k h

/-- C2 witness: with `A` preset to `x`, loading a file line `A=y` leaves
`A = x`. -/
theorem C2_env_loader_first_writer_wins_witness :
    loadEnvFile (some ["A=y".toList])
      (fun k => if k = "A".toList then some ("x".toList) else none)
      "A".toList = some ("x".toList) :=
  (C2_env_loader_first_writer_wins (some ["A=y".toList])
    (fun k => if k = "A".toList then some ("x".toList) else none)
    "A".toList).1 ("x".toList) rfl

/-- C3: a line `KEY=VALUE` (split at the first `=`) whose stripped key is
non-empty and unset puts the stripped, quote-stripped value in the
environment; blank lines, `#` comment lines and lines without `=` leave the
environment untouched; a missing `.env` file is a no-op. -/
theorem C3_env_line_parsing :
    (∀ (env : Env) (l k0 v0 : Str),
        pyStrip l ≠ [] →
        (pyStrip l).head? ≠ some '#' →
        splitFirstEq (pyStrip l) = some (k0, v0) →
        pyStrip k0 ≠ [] →
        env (pyStrip k0) = none →
        processLine env l (pyStrip k0) = some (stripQuotes (pyStrip v0))) ∧
    (∀ (env : Env) (l : Str),
        pyStrip l = [] ∨ (pyStrip l).head? = some '#' ∨
          splitFirstEq (pyStrip l) = none →
        processLine env l = env) ∧
    (∀ env : Env, loadEnvFile none env = env) := by
  refine ⟨?_, ?_, fun _ => rfl⟩
  · intro env l k0 v0 hne hnc hsp hk henv
    unfold processLine
    rw [if_neg (by simp [hne, hnc]), hsp]
    show (if pyStrip k0 ≠ [] ∧ env (pyStrip k0) = none then
        updEnv env (pyStrip k0) (stripQuotes (pyStrip v0)) else env) (pyStrip k0) =
      some (stripQuotes (pyStrip v0))
    rw [if_pos ⟨hk, henv⟩]
    unfold updEnv
    simp
  · intro env l h
    unfold processLine
    rcases h with h | h | h
    · rw [if_pos (Or.inl h)]
    · rw [if_pos (Or.inr h)]
    · by_cases h1 : pyStrip l = [] ∨ (pyStrip l).head? = some '#'
      · rw [if_pos h1]
      · rw [if_neg h1, h]

/-- C3 witness: loading the single line `  FOO = "bar"  ` into an empty
environment sets `FOO` to the stripped, quote-stripped value. -/
theorem C3_env_line_parsing_witness :
    processLine (fun _ => none) ("  FOO = \"bar\"  ".toList)
      (pyStrip ("FOO ".toList)) =
      some (stripQuotes (pyStrip (" \"bar\"".toList))) :=
  C3_env_line_parsing.1 (fun _ => none) ("  FOO = \"bar\"  ".toList)
    ("FOO ".toList) (" \"bar\"".toList)
    (by decide) (by decide) (by decide) (by decide) rfl

/-- `os.environ` key `POSTGRES_HOST`. -/
def kHost : Str := "POSTGRES_HOST".toList

/-- `os.environ` key `POSTGRES_PORT`. -/
def kPort : Str := "POSTGRES_PORT".toList

/-- `os.environ` key `POSTGRES_USER`. -/
def kUser : Str := "POSTGRES_USER".toList

/-- `os.environ` key `POSTGRES_PASSWORD`. -/
def kPassword : Str := "POSTGRES_PASSWORD".toList

/-- `os.environ` key `POSTGRES_DB`. -/
def kDb : Str := "POSTGRES_DB".toList

/-- Numeric value of a decimal digit character. -/
def digitVal (c : Char) : Nat := c.toNat - '0'.toNat

/-- Digits of a Python `int()` literal after the first digit: an underscore
is allowed only between two digits. -/
def pyDigitsAux : Nat → List Char → Option Nat
  | acc, [] => some acc
  | acc, '_' :: c :: rest =>
    if c.isDigit then pyDigitsAux (acc * 10 + digitVal c) rest else none
  | acc, c :: rest =>
    if c.isDigit then pyDigitsAux (acc * 10 + digitVal c) rest else none

/-- A non-empty run of decimal digits (with Python's underscore rule). -/
def pyDigits : List Char → Option Nat
  | [] => none
  | c :: rest => if c.isDigit then pyDigitsAux (digitVal c) rest else none

/-- Python `int(s)` on a decimal string: surrounding whitespace is ignored,
an optional sign precedes the digits; `none` models the `ValueError` raised
on a non-numeric string. -/
def pyInt (s : Str) : Option Int :=
  match pyStrip s with
  | '+' :: rest => (pyDigits rest).map (fun n => (n : Int))
  | '-' :: rest => (pyDigits rest).map (fun n => -(n : Int))
  | rest => (pyDigits rest).map (fun n => (n : Int))

/-- The five-field Connection Config built by `get_db_config`. -/
structure DbConfig where
  host : Str
  port : Int
  user : Str
  password : Str
  database : Str
deriving DecidableEq

/-- The defensive password quote-stripping in `get_db_config`
(`src/postgres/postgres-conn-test.py` lines 57-62 and
`src/test/test_cases/test_database_connection.py` lines 54-59): an
`if`/`elif` on matching double then single surrounding quotes. -/
def pwStrip (v : Str) : Str :=
  if v.head? = some '"' ∧ v.getLast? = some '"' then (v.drop 1).dropLast
  else if v.head? = some '\'' ∧ v.getLast? = some '\'' then (v.drop 1).dropLast
  else v

/-- `get_db_config`: reads the five `POSTGRES_*` variables with defaults
(`localhost`, `"5432"`, `hades`, `""`, `hades_db`), parses the port with
`int()` (`none` models the uncaught `ValueError`), and strips one layer of
quotes from the password. -/
def getDbConfig (env : Env) : Option DbConfig :=
  match pyInt ((env kPort).getD ("5432".toList)) with
  | none => none
  | some p =>
    some { host := (env kHost).getD ("localhost".toList),
           port := p,
           user := (env kUser).getD ("hades".toList),
           password := pwStrip ((env kPassword).getD []),
           database := (env kDb).getD ("hades_db".toList) }

/-- C9: with none of the five `POSTGRES_*` variables set, `get_db_config`
returns exactly the default five-field config (all fields present by the
`DbConfig` record type). -/
theorem C9_config_resolver_defaults (env : Env)
    (h1 : env kHost = none) (h2 : env kPort = none) (h3 : env kUser = none)
    (h4 : env kPassword = none) (h5 : env kDb = none) :
    getDbConfig env = some ⟨"localhost".toList, 5432, "hades".toList, [],
      "hades_db".toList⟩ := by
  unfold getDbConfig
  rw [h1, h2, h3, h4, h5]
  rfl

/-- C9 witness: the empty environment yields the default config. -/
theorem C9_config_resolver_defaults_witness :
    getDbConfig (fun _ => none) = some ⟨"localhost".toList, 5432,
      "hades".toList, [], "hades_db".toList⟩ :=
  C9_config_resolver_defaults (fun _ => none) rfl rfl rfl rfl rfl

/-- Faults that `asyncpg` can raise, as caught by the two `except` clauses of
`test_connection`: `asyncpg.PostgresError` versus any other `Exception`. -/
inductive PgFault where
  | pg (msg : String)
  | other (msg : String)
deriving DecidableEq

/-- Oracle for the database wire protocol: whether `asyncpg.connect` opens a
connection (or raises), and what `conn.fetchval("SELECT 1;")` returns (or
raises).  `conn.close()` is modelled as an event flag. -/
structure ConnWorld where
  connect : Except PgFault Unit
  fetch : Except PgFault Int

/-- The connection summary string interpolated by `test_connection`:
`{user}@{host}:{port}/{database}`. -/
def fmtCfg (cfg : DbConfig) : String :=
  String.mk cfg.user ++ "@" ++ String.mk cfg.host ++ ":" ++
    toString cfg.port ++ "/" ++ String.mk cfg.database

/-- `test_connection` from `src/test/test_cases/test_database_connection.py`
lines 70-84: returns `(success, message)`; the second component of the result
pair records whether `conn.close()` was reached (it sits in a `finally`
around the query).  Both `except` clauses swallow the fault, so the function
is total: no exception escapes. -/
def testConnectionTC (w : ConnWorld) (cfg : DbConfig) : (Bool × String) × Bool :=
  match w.connect with
  | .error (.pg m) => ((false, "Database connection failed: " ++ m), false)
  | .error (.other m) => ((false, "Unexpected error during connection test: " ++ m), false)
  | .ok _ =>
    match w.fetch with
    | .ok r =>
      if r = 1 then ((true, "Successfully connected to " ++ fmtCfg cfg), true)
      else ((false, "Connection succeeded but query returned unexpected result"), true)
    | .error (.pg m) => ((false, "Database connection failed: " ++ m), true)
    | .error (.other m) => ((false, "Unexpected error during connection test: " ++ m), true)

/-- `test_connection` from `src/postgres/postgres-conn-test.py` lines 73-91:
returns a bare boolean (messages only go to `print`), and returns `True`
whenever `fetchval` does not raise — the fetched value is discarded, never
compared with `1`.  Second component: whether `conn.close()` was reached. -/
def testConnectionPG (w : ConnWorld) : Bool × Bool :=
  match w.connect with
  | .error _ => (false, false)
  | .ok _ =>
    match w.fetch with
    | .ok _ => (true, true)
    | .error _ => (false, true)

/-- A fixed valid config used to instantiate connectivity theorems. -/
def cfgW : DbConfig :=
  ⟨"localhost".toList, 5432, "hades".toList, "x".toList, "hades_db".toList⟩

/-- C1 counterexample: the standalone script's checker
(`postgres-conn-test.py`) reports success when `SELECT 1` yields `2`: the
fetched value is never compared with 1 (and the function returns a bare
boolean, not a `(success, message)` pair). -/
theorem C1_counterexample :
    (testConnectionPG ⟨Except.ok (), Except.ok 2⟩).1 = true ∧ (2 : Int) ≠ 1 := by
  decide

/-- C1 (amended): the test-case checker returns a pair, succeeds exactly when
the connection opens and the query yields 1, tags `PostgresError` messages
and generic faults distinctly, and closes the connection exactly when one was
opened; the standalone script's checker also never lets a fault escape and
closes the connection whenever opened, but returns a bare boolean that is
true whenever the query ran without raising, regardless of its value. -/
theorem C1_connectivity_checker (w : ConnWorld) (cfg : DbConfig) :
    ((testConnectionTC w cfg).1.1 = true ↔
        w.connect = Except.ok () ∧ w.fetch = Except.ok 1) ∧
    ((testConnectionTC w cfg).2 = true ↔ w.connect = Except.ok ()) ∧
    (∀ m, w.connect = Except.error (PgFault.pg m) →
        (testConnectionTC w cfg).1 = (false, "Database connection failed: " ++ m)) ∧
    (∀ m, w.connect = Except.error (PgFault.other m) →
        (testConnectionTC w cfg).1 =
          (false, "Unexpected error during connection test: " ++ m)) ∧
    (∀ m, w.connect = Except.ok () → w.fetch = Except.error (PgFault.pg m) →
        (testConnectionTC w cfg).1 = (false, "Database connection failed: " ++ m)) ∧
    (∀ m, w.connect = Except.ok () → w.fetch = Except.error (PgFault.other m) →
        (testConnectionTC w cfg).1 =
          (false, "Unexpected error during connection test: " ++ m)) ∧
    ((testConnectionPG w).1 = true ↔
        w.connect = Except.ok () ∧ ∃ v, w.fetch = Except.ok v) ∧
    ((testConnectionPG w).2 = true ↔ w.connect = Except.ok ()) := by
  obtain ⟨c, f⟩ := w
  rcases c with e | u
  · rcases e with m | m <;> simp [testConnectionTC, testConnectionPG]
  · cases u
    rcases f with e | v
    · rcases e with m | m <;> simp [testConnectionTC, testConnectionPG]
    · by_cases hv : v = 1 <;> simp [testConnectionTC, testConnectionPG, hv]

/-- C1 witness: a `PostgresError` at connect time is reported with its own
message by the test-case checker. -/
theorem C1_connectivity_checker_witness :
    (testConnectionTC ⟨Except.error (PgFault.pg "boom"), Except.ok 1⟩ cfgW).1 =
      (false, "Database connection failed: " ++ "boom") :=
  (C1_connectivity_checker ⟨Except.error (PgFault.pg "boom"), Except.ok 1⟩
    cfgW).2.2.1 "boom" rfl

/-- An external effect of the harness: a subprocess invocation (with the
`timeout=` seconds passed to `subprocess.run`) or a database network
connection attempt. -/
inductive Event where
  | subproc (cmd : List String) (timeoutSecs : Nat)
  | netConnect
deriving DecidableEq

/-- Outcome of one `subprocess.run` call: a completed process (return code,
stdout, stderr), `subprocess.TimeoutExpired`, `FileNotFoundError`, or any
other exception (e.g. `PermissionError`) — the latter is needed because the
source distinguishes which exception classes it catches. -/
inductive SubOutcome where
  | ok (returncode : Int) (stdout stderr : String)
  | timedOut
  | notFound (msg : String)
  | otherErr (msg : String)
deriving DecidableEq

/-- Oracle for the container-orchestration CLI: whether the compose file
exists, and the outcome of each subprocess command. -/
structure CtrlWorld where
  composeFileExists : Bool
  run : List String → SubOutcome

/-- The compose file path (modelled as its file name; the scripts use an
absolute path derived from the script location). -/
def composePath : String := "docker-compose.yml"

/-- `"docker compose".split()`. -/
def dcNew : List String := ["docker", "compose"]

/-- `"docker-compose".split()`. -/
def dcOld : List String := ["docker-compose"]

/-- Python's substring test `pat in s`. -/
def containsSub (pat : Str) : Str → Bool
  | [] => pat.isEmpty
  | c :: rest => pat.isPrefixOf (c :: rest) || containsSub pat rest

/-- One iteration of the compose-command detection loop in
`ensure_container_running` (`test_database_connection.py` lines 96-108):
`subprocess.run(cmd.split() + ["version"], check=True, timeout=5)`.
`check=True` turns a nonzero exit into `CalledProcessError`, which is caught
(like `TimeoutExpired` and `FileNotFoundError`) and means "try the next
command"; any other exception is NOT caught and escapes (`.error`). -/
def probeOne (w : CtrlWorld) (base : List String) : Except String Bool :=
  match w.run (base ++ ["version"]) with
  | .ok c _ _ => if c = 0 then .ok true else .ok false
  | .timedOut => .ok false
  | .notFound _ => .ok false
  | .otherErr m => .error m

/-- The `ps --status running db` command of `ensure_container_running`. -/
def psCmdOf (compose : List String) : List String :=
  compose ++ ["-f", composePath, "ps", "--status", "running", "db"]

/-- The `up -d db` command of `ensure_container_running`. -/
def upCmdOf (compose : List String) : List String :=
  compose ++ ["-f", composePath, "up", "-d", "db"]

/-- The `try` block of `ensure_container_running` (lines 113-143) once a
compose command is selected: run `ps --status running db` with `timeout=10`;
if `"db"` occurs in its stdout the container is already running; otherwise
run `up -d db` with `timeout=60` and report per its return code.
`TimeoutExpired` and every other `Exception` are caught here and converted
to `(False, message)`. -/
def runWithCompose (w : CtrlWorld) (compose : List String) (evs : List Event) :
    List Event × Except String (Bool × String) :=
  match w.run (psCmdOf compose) with
  | .ok _ out _ =>
    if containsSub ("db".toList) out.toList then
      (evs ++ [Event.subproc (psCmdOf compose) 10],
       .ok (true, "Container is already running"))
    else
      match w.run (upCmdOf compose) with
      | .ok c _ err =>
        if c ≠ 0 then
          (evs ++ [Event.subproc (psCmdOf compose) 10, Event.subproc (upCmdOf compose) 60],
           .ok (false, "Failed to start container: " ++ err))
        else
          (evs ++ [Event.subproc (psCmdOf compose) 10, Event.subproc (upCmdOf compose) 60],
           .ok (true, "Container started successfully"))
      | .timedOut =>
        (evs ++ [Event.subproc (psCmdOf compose) 10, Event.subproc (upCmdOf compose) 60],
         .ok (false, "Command timed out"))
      | .notFound m =>
        (evs ++ [Event.subproc (psCmdOf compose) 10, Event.subproc (upCmdOf compose) 60],
         .ok (false, "Error ensuring container is running: " ++ m))
      | .otherErr m =>
        (evs ++ [Event.subproc (psCmdOf compose) 10, Event.subproc (upCmdOf compose) 60],
         .ok (false, "Error ensuring container is running: " ++ m))
  | .timedOut =>
    (evs ++ [Event.subproc (psCmdOf compose) 10], .ok (false, "Command timed out"))
  | .notFound m =>
    (evs ++ [Event.subproc (psCmdOf compose) 10],
     .ok (false, "Error ensuring container is running: " ++ m))
  | .otherErr m =>
    (evs ++ [Event.subproc (psCmdOf compose) 10],
     .ok (false, "Error ensuring container is running: " ++ m))

/-- `ensure_container_running` (`test_database_connection.py` lines 87-143):
check the compose file, detect the compose command (where an uncaught
exception in the probe escapes as `.error`), then check/start the `db`
service.  The first component is the trace of subprocess events. -/
def ensureContainerRunning (w : CtrlWorld) :
    List Event × Except String (Bool × String) :=
  if w.composeFileExists = false then
    ([], .ok (false, "docker-compose.yml not found at " ++ composePath))
  else
    match probeOne w dcNew with
    | .error m => ([Event.subproc (dcNew ++ ["version"]) 5], .error m)
    | .ok true => runWithCompose w dcNew [Event.subproc (dcNew ++ ["version"]) 5]
    | .ok false =>
      match probeOne w dcOld with
      | .error m =>
        ([Event.subproc (dcNew ++ ["version"]) 5, Event.subproc (dcOld ++ ["version"]) 5],
         .error m)
      | .ok true =>
        runWithCompose w dcOld
          [Event.subproc (dcNew ++ ["version"]) 5, Event.subproc (dcOld ++ ["version"]) 5]
      | .ok false =>
        ([Event.subproc (dcNew ++ ["version"]) 5, Event.subproc (dcOld ++ ["version"]) 5],
         .ok (false, "Docker Compose not available"))

/-- `run_command` from `test_container_up.py`/`test_container_down.py` lines
13-26: every call uses `timeout=60`, and `TimeoutExpired` as well as every
other `Exception` is converted to `(1, "", message)`. -/
def runCommand (w : CtrlWorld) (cmd : List String) :
    List Event × (Int × String × String) :=
  ([Event.subproc cmd 60],
   match w.run cmd with
   | .ok c o e => (c, o, e)
   | .timedOut => (1, "", "Command timed out")
   | .notFound m => (1, "", m)
   | .otherErr m => (1, "", m))

/-- Every result of `runWithCompose` is a `(Bool, message)` pair — no
exception escapes the inner `try`. -/
theorem runWithCompose_ok (w : CtrlWorld) (compose : List String)
    (evs : List Event) :
    ∃ b m, (runWithCompose w compose evs).2 = Except.ok (b, m) := by
  unfold runWithCompose
  repeat' split
  all_goals exact ⟨_, _, rfl⟩

/-- Every event of `runWithCompose` is inherited or is the `ps` call with
timeout 10 or the `up` call with timeout 60. -/
theorem runWithCompose_events (w : CtrlWorld) (compose : List String)
    (evs : List Event) :
    ∀ e ∈ (runWithCompose w compose evs).1,
      e ∈ evs ∨ e = Event.subproc (psCmdOf compose) 10 ∨
        e = Event.subproc (upCmdOf compose) 60 := by
  intro e he
  unfold runWithCompose at he
  repeat' split at he
  all_goals
    simp only [List.mem_append, List.mem_singleton, List.mem_cons,
      List.not_mem_nil, or_false] at he
  all_goals tauto

/-- Every event of `ensure_container_running` is a subprocess call with
timeout 5, 10 or 60 seconds. -/
theorem ensureContainerRunning_events (w : CtrlWorld) :
    ∀ e ∈ (ensureContainerRunning w).1,
      ∃ c t, e = Event.subproc c t ∧ (t = 5 ∨ t = 10 ∨ t = 60) := by
  intro e he
  unfold ensureContainerRunning at he
  split at he
  · simp at he
  · split at he
    · simp only [List.mem_singleton] at he
      exact ⟨_, 5, he, Or.inl rfl⟩
    · rcases runWithCompose_events w dcNew _ e he with h | h | h
      · simp only [List.mem_singleton] at h
        exact ⟨_, 5, h, Or.inl rfl⟩
      · exact ⟨_, 10, h, Or.inr (Or.inl rfl)⟩
      · exact ⟨_, 60, h, Or.inr (Or.inr rfl)⟩
    · split at he
      · simp only [List.mem_cons, List.not_mem_nil, or_false] at he
        rcases he with h | h
        · exact ⟨_, 5, h, Or.inl rfl⟩
        · exact ⟨_, 5, h, Or.inl rfl⟩
      · rcases runWithCompose_events w dcOld _ e he with h | h | h
        · simp only [List.mem_cons, List.not_mem_nil, or_false] at h
          rcases h with h | h
          · exact ⟨_, 5, h, Or.inl rfl⟩
          · exact ⟨_, 5, h, Or.inl rfl⟩
        · exact ⟨_, 10, h, Or.inr (Or.inl rfl)⟩
        · exact ⟨_, 60, h, Or.inr (Or.inr rfl)⟩
      · simp only [List.mem_cons, List.not_mem_nil, or_false] at he
        rcases he with h | h
        · exact ⟨_, 5, h, Or.inl rfl⟩
        · exact ⟨_, 5, h, Or.inl rfl⟩

/-- C8 (amended): every subprocess call of the container controller carries a
timeout (60s in `run_command`; 5, 10 or 60s in `ensure_container_running`); a
timeout is always converted to a failure result; `run_command` converts every
fault to a nonzero exit code with a message; and `ensure_container_running`
returns a `(Bool, message)` pair whenever neither compose-probe call raises
an exception outside the three caught classes. -/
theorem C8_subprocess_timeouts (w : CtrlWorld) (cmd compose : List String)
    (evs : List Event) :
    (∀ e ∈ (runCommand w cmd).1, e = Event.subproc cmd 60) ∧
    (∀ e ∈ (ensureContainerRunning w).1,
        ∃ c t, e = Event.subproc c t ∧ (t = 5 ∨ t = 10 ∨ t = 60)) ∧
    (w.run cmd = SubOutcome.timedOut →
        (runCommand w cmd).2 = (1, "", "Command timed out")) ∧
    (w.run (psCmdOf compose) = SubOutcome.timedOut →
        (runWithCompose w compose evs).2 = Except.ok (false, "Command timed out")) ∧
    ((∀ m, probeOne w dcNew ≠ Except.error m) →
        (∀ m, probeOne w dcOld ≠ Except.error m) →
        ∃ b msg, (ensureContainerRunning w).2 = Except.ok (b, msg)) := by
  refine ⟨?_, ensureContainerRunning_events w, ?_, ?_, ?_⟩
  · intro e he
    simpa [runCommand] using he
  · intro h
    simp [runCommand, h]
  · intro h
    unfold runWithCompose
    rw [h]
  · intro h1 h2
    unfold ensureContainerRunning
    split
    · exact ⟨_, _, rfl⟩
    · rcases hp : probeOne w dcNew with m | b
      · exact absurd hp (h1 m)
      · cases b
        · rcases hq : probeOne w dcOld with m | b2
          · exact absurd hq (h2 m)
          · cases b2
            · exact ⟨_, _, rfl⟩
            · exact runWithCompose_ok w dcOld _
        · exact runWithCompose_ok w dcNew _

/-- A world where both compose probes succeed and the `db` service shows as
running. -/
def wAllOk : CtrlWorld := ⟨true, fun _ => SubOutcome.ok 0 "db" ""⟩

/-- C8 witness: in a world with no probe fault, `ensure_container_running`
returns a `(Bool, message)` pair. -/
theorem C8_subprocess_timeouts_witness :
    ∃ b msg, (ensureContainerRunning wAllOk).2 = Except.ok (b, msg) := by
  have h := (C8_subprocess_timeouts wAllOk [] dcNew []).2.2.2.2
  apply h
  · intro m hm
    have he : probeOne wAllOk dcNew = Except.ok true := rfl
    rw [he] at hm
    exact Except.noConfusion hm
  · intro m hm
    have he : probeOne wAllOk dcOld = Except.ok true := rfl
    rw [he] at hm
    exact Except.noConfusion hm

/-- A world where `subprocess.run` raises `PermissionError` on the first
compose probe. -/
def wPermDenied : CtrlWorld :=
  ⟨true, fun c => if c = dcNew ++ ["version"] then SubOutcome.otherErr "Permission denied"
                  else SubOutcome.ok 0 "" ""⟩

/-- C8 counterexample: a `PermissionError` raised by `subprocess.run` during
the compose-command probe is not caught by the
`(CalledProcessError, TimeoutExpired, FileNotFoundError)` handler and escapes
`ensure_container_running` as an unhandled exception. -/
theorem C8_counterexample :
    (ensureContainerRunning wPermDenied).2 = Except.error "Permission denied" := by
  rfl

/-- `test_database_connection` (`test_database_connection.py` lines 146-167):
ensure the container is running (subprocess I/O) FIRST, then load `.env`,
then build the config — where a non-numeric `POSTGRES_PORT` raises an
uncaught `ValueError` (`.error`) — then validate password and user, and only
then attempt the network connection.  First component: the event trace. -/
def testDatabaseConnection (wc : CtrlWorld) (file : Option (List Str))
    (env : Env) (wn : ConnWorld) : List Event × Except String (Bool × String) :=
  match ensureContainerRunning wc with
  | (evs, .error m) => (evs, .error m)
  | (evs, .ok (false, msg)) => (evs, .ok (false, "Cannot test connection: " ++ msg))
  | (evs, .ok (true, _)) =>
    match getDbConfig (loadEnvFile file env) with
    | none => (evs, .error "ValueError: invalid literal for int() with base 10")
    | some cfg =>
      if cfg.password = [] then
        (evs, .ok (false, "POSTGRES_PASSWORD environment variable is not set or is empty"))
      else if cfg.user = [] then
        (evs, .ok (false, "POSTGRES_USER environment variable is not set"))
      else
        (evs ++ [Event.netConnect], .ok (testConnectionTC wn cfg).1)

/-- How a run of `main` in `postgres-conn-test.py` ends: a `sys.exit` (with
any message printed to stderr) or an uncaught exception. -/
inductive ExitKind where
  | exited (code : Nat) (stderrMsg : Option String)
  | raisedOut (msg : String)
deriving DecidableEq

/-- The observable process outcome: exit code, and whether anything was
written to standard error.  An uncaught Python exception prints its traceback
to stderr and exits with code 1. -/
def runProcessExit : ExitKind → Nat × Bool
  | .exited c s => (c, s.isSome)
  | .raisedOut _ => (1, true)

/-- `main` of `src/postgres/postgres-conn-test.py` (lines 94-112): load
`.env`, build the config (an uncaught `ValueError` on a bad port), validate
password and user with `sys.exit(1)` and an stderr message, then run the
connectivity check and exit 0/1.  First component: the event trace (this
`main` makes no subprocess calls at all). -/
def mainPG (file : Option (List Str)) (env : Env) (w : ConnWorld) :
    List Event × ExitKind :=
  match getDbConfig (loadEnvFile file env) with
  | none => ([], ExitKind.raisedOut "ValueError: invalid literal for int() with base 10")
  | some cfg =>
    if cfg.password = [] then
      ([], ExitKind.exited 1
        (some "Error: POSTGRES_PASSWORD environment variable is not set or is empty"))
    else if cfg.user = [] then
      ([], ExitKind.exited 1 (some "Error: POSTGRES_USER environment variable is not set"))
    else
      ([Event.netConnect],
       ExitKind.exited (if (testConnectionPG w).1 then 0 else 1) none)

/-- C4 (amended): in the standalone script `postgres-conn-test.py`, a
non-numeric preset `POSTGRES_PORT` makes the run end nonzero with stderr
output before any subprocess call or network connection. -/
theorem C4_nonnumeric_port_fatal (file : Option (List Str)) (env : Env)
    (w : ConnWorld) (p : Str)
    (hset : env kPort = some p) (hbad : pyInt p = none) :
    (mainPG file env w).1 = [] ∧
    0 < (runProcessExit (mainPG file env w).2).1 ∧
    (runProcessExit (mainPG file env w).2).2 = true := by
  have hpres : loadEnvFile file env kPort = some p := by
    cases file with
    | none => exact hset
    | some lines => exact foldl_processLine_preserves lines env kPort p hset
  have hcfg : getDbConfig (loadEnvFile file env) = none := by
    unfold getDbConfig
    rw [hpres, Option.getD_some, hbad]
  refine ⟨?_, ?_, ?_⟩ <;> simp [mainPG, hcfg, runProcessExit]

/-- An environment whose only binding sets `POSTGRES_PORT` to the
non-numeric string `abc`. -/
def envPortBad : Env := fun k => if k = kPort then some ("abc".toList) else none

/-- A connection world where connect succeeds and `SELECT 1` yields 1. -/
def wConnOk : ConnWorld := ⟨Except.ok (), Except.ok 1⟩

/-- C4 witness: with `POSTGRES_PORT=abc` the standalone script performs no
subprocess or network I/O and exits nonzero with stderr output. -/
theorem C4_nonnumeric_port_fatal_witness :
    (mainPG none envPortBad wConnOk).1 = [] ∧
    0 < (runProcessExit (mainPG none envPortBad wConnOk).2).1 ∧
    (runProcessExit (mainPG none envPortBad wConnOk).2).2 = true :=
  C4_nonnumeric_port_fatal none envPortBad wConnOk ("abc".toList) rfl (by decide)

/-- C4 counterexample: in the test case `test_database_connection`, with
`POSTGRES_PORT=abc` and a healthy container world, two subprocess calls (the
compose probe and the `ps` status check) are attempted BEFORE the port is
parsed; only then does the non-numeric port raise.  So I/O is attempted
before the fatal configuration error, contrary to the claim. -/
theorem C4_counterexample :
    (testDatabaseConnection wAllOk none envPortBad wConnOk).1 =
      [Event.subproc (dcNew ++ ["version"]) 5, Event.subproc (psCmdOf dcNew) 10] ∧
    (testDatabaseConnection wAllOk none envPortBad wConnOk).2 =
      Except.error "ValueError: invalid literal for int() with base 10" :=
  ⟨rfl, rfl⟩

/-- An environment where `POSTGRES_PASSWORD` is a lone double-quote
character. -/
def envLoneQuote : Env := fun k => if k = kPassword then some ['"'] else none

/-- C10: a value that is exactly one quote character is treated as both the
opening and the closing quote: `[1:-1]` reduces it to the empty string, in
the loader's `stripQuotes` and in `get_db_config`'s password handling; a
`POSTGRES_PASSWORD` of a lone quote is then rejected by
`test_database_connection` as empty/unset. -/
theorem C10_lone_quote_collapses :
    stripQuotes ['"'] = [] ∧ stripQuotes ['\''] = [] ∧
    pwStrip ['"'] = [] ∧ pwStrip ['\''] = [] ∧
    (getDbConfig envLoneQuote).map DbConfig.password = some [] ∧
    (testDatabaseConnection wAllOk none envLoneQuote wConnOk).2 =
      Except.ok (false, "POSTGRES_PASSWORD environment variable is not set or is empty") :=
  ⟨rfl, rfl, rfl, rfl, rfl, rfl⟩

/-- Python `test_name.replace("test_", "")`: removes every non-overlapping
occurrence of `test_`, scanning left to right — not just a leading prefix. -/
def removeTestUnd : Str → Str
  | 't' :: 'e' :: 's' :: 't' :: '_' :: rest => removeTestUnd rest
  | c :: rest => c :: removeTestUnd rest
  | [] => []

/-- The function name `run_test_case` derives from the file stem
(`exec-tests.py` lines 27 and 38): `f"test_{test_name.replace('test_', '')}"`. -/
def derivedName (stem : Str) : Str := "test_".toList ++ removeTestUnd stem

/-- Modelled from the claim's wording for comparison: `test_` followed by the
file's base name with the `test_` PREFIX stripped (one leading occurrence
only). -/
def specDerivedName (stem : Str) : Str :=
  "test_".toList ++ (if "test_".toList.isPrefixOf stem then stem.drop 5 else stem)

/-- A loaded module: its attributes as (name, callable?) pairs. -/
abbrev PyModule := List (Str × Bool)

/-- Python `hasattr(module, n)`. -/
def hasAttrM (m : PyModule) (n : Str) : Bool := m.any (fun a => a.1 == n)

/-- Python `callable(getattr(module, n))`. -/
def isCallableAttr (m : PyModule) (n : Str) : Bool :=
  ((m.find? (fun a => a.1 == n)).map Prod.snd).getD false

/-- Python `dir(module)`: the attribute names in sorted order. -/
def dirNames (m : PyModule) : List Str :=
  List.insertionSort (· ≤ ·) (m.map Prod.fst)

/-- The test-function lookup of `run_test_case` (`exec-tests.py` lines
27-39): if the attribute named `derivedName` exists, use it; otherwise take
the first name in `dir(module)` order that starts with `test_` and is
callable. -/
def selectTestFunc (stem : Str) (m : PyModule) : Option Str :=
  if hasAttrM m (derivedName stem) then some (derivedName stem)
  else
    ((dirNames m).filter
      (fun n => "test_".toList.isPrefixOf n && isCallableAttr m n)).head?

/-- How loading a test module can go: `spec_from_file_location` returning
`None`, an exception during load, or a loaded module. -/
inductive LoadOutcome where
  | specNone
  | raised (msg : String)
  | loaded (m : PyModule)

/-- `run_test_case` (`exec-tests.py` lines 12-46): load the module, locate
the test function, invoke it; every exception during load or invocation is
caught and becomes `(name, False, "Test execution error: <exc>")`. -/
def runTestCase (stem : Str) (path : String) (load : LoadOutcome)
    (invoke : Str → Except String (Bool × String)) : Str × Bool × String :=
  match load with
  | .specNone => (stem, false, "Failed to load test module: " ++ path)
  | .raised m => (stem, false, "Test execution error: " ++ m)
  | .loaded mod =>
    match selectTestFunc stem mod with
    | none => (stem, false, "No test function found in module")
    | some f =>
      match invoke f with
      | .error m => (stem, false, "Test execution error: " ++ m)
      | .ok (s, msg) => (stem, s, msg)

/-- One discovered test case as `main` executes it: stem, path, and the load
and invocation oracles. -/
structure TCase where
  stem : Str
  path : String
  load : LoadOutcome
  invoke : Str → Except String (Bool × String)

/-- `main` of `exec-tests.py` (lines 62-110): zero test files prints the
`"No test cases found"` error (third component) and exits 1; otherwise one
result per file in order, exiting 0 iff no result failed. -/
def mainRun (tcs : List TCase) : List (Str × Bool × String) × Nat × Bool :=
  match tcs with
  | [] => ([], 1, true)
  | _ :: _ =>
    (tcs.map (fun t => runTestCase t.stem t.path t.load t.invoke),
     if (tcs.map (fun t => runTestCase t.stem t.path t.load t.invoke)).all
          (fun r => r.2.1) then 0 else 1,
     false)

/-- A directory entry: file name and Python's `is_file()` flag. -/
structure DirEntry where
  name : Str
  isFile : Bool

/-- Position of the last `.` in a name (Python `name.rfind('.')`). -/
def rfindDot : Str → Option Nat
  | [] => none
  | c :: rest =>
    match rfindDot rest with
    | some i => some (i + 1)
    | none => if c = '.' then some 0 else none

/-- `pathlib.PurePath.suffix`: the final extension, empty when the last dot
is leading or trailing. -/
def pySuffix (name : Str) : Str :=
  match rfindDot name with
  | none => []
  | some i => if 0 < i ∧ i < name.length - 1 then name.drop i else []

/-- `pathlib.PurePath.stem`: the name with its `pySuffix` removed. -/
def pyStem (name : Str) : Str :=
  match rfindDot name with
  | none => name
  | some i => if 0 < i ∧ i < name.length - 1 then name.take i else name

/-- The discovery filter of `discover_test_cases` (`exec-tests.py` line 56):
`file.is_file() and file.suffix == ".py" and file.name.startswith("test_")`. -/
def testCasePred (e : DirEntry) : Bool :=
  e.isFile && pySuffix e.name == ".py".toList && "test_".toList.isPrefixOf e.name

/-- `discover_test_cases` (`exec-tests.py` lines 49-59): a missing directory
yields `[]`; otherwise the filtered names sorted lexicographically (Python
sorts the `Path` objects, which within one directory is sorting by name). -/
def discoverTestCases (dir : Option (List DirEntry)) : List Str :=
  match dir with
  | none => []
  | some es => List.insertionSort (· ≤ ·) ((es.filter testCasePred).map DirEntry.name)

/-- The first component of a `run_test_case` result is always the stem. -/
theorem runTestCase_fst (stem : Str) (path : String) (load : LoadOutcome)
    (invoke : Str → Except String (Bool × String)) :
    (runTestCase stem path load invoke).1 = stem := by
  unfold runTestCase
  repeat' split
  all_goals rfl

/-- C5 (amended): the runner invokes the attribute named `test_` followed by
the stem with EVERY occurrence of the substring `test_` removed (for stems
with a single leading `test_` this coincides with prefix-stripping); when no
attribute of that name exists it falls back to the first callable in
`dir(module)` (sorted) order whose name starts with `test_`; when that also
fails the result message is `No test function found in module`. -/
theorem C5_test_function_lookup (stem : Str) (m : PyModule) :
    (hasAttrM m (derivedName stem) = true →
        selectTestFunc stem m = some (derivedName stem)) ∧
    (hasAttrM m (derivedName stem) = false →
        selectTestFunc stem m =
          ((dirNames m).filter
            (fun n => "test_".toList.isPrefixOf n && isCallableAttr m n)).head?) ∧
    (∀ path inv, hasAttrM m (derivedName stem) = false →
        ((dirNames m).filter
            (fun n => "test_".toList.isPrefixOf n && isCallableAttr m n)) = [] →
        runTestCase stem path (LoadOutcome.loaded m) inv =
          (stem, false, "No test function found in module")) := by
  refine ⟨?_, ?_, ?_⟩
  · intro h; simp [selectTestFunc, h]
  · intro h; simp [selectTestFunc, h]
  · intro path inv h hf
    have hsel : selectTestFunc stem m = none := by
      rw [selectTestFunc, if_neg (by simp [h]), hf]
      rfl
    simp [runTestCase, hsel]

/-- C5 witness: for `test_python_version` the derived-name attribute exists
and is selected. -/
theorem C5_test_function_lookup_witness :
    selectTestFunc ("test_python_version".toList)
      [("test_python_version".toList, true)] =
      some (derivedName ("test_python_version".toList)) :=
  (C5_test_function_lookup ("test_python_version".toList)
    [("test_python_version".toList, true)]).1 (by decide)

/-- A module offering both the replace-all-derived and the
prefix-stripped-derived callables. -/
def modCEx : PyModule := [("test_a_b".toList, true), ("test_a_test_b".toList, true)]

/-- C5 counterexample: for the file stem `test_a_test_b`,
`replace("test_", "")` removes BOTH occurrences, so the runner selects
`test_a_b` even though the callable `test_a_test_b` — the name obtained by
stripping only the `test_` prefix, as the claim states — exists in the
module. -/
theorem C5_counterexample :
    selectTestFunc ("test_a_test_b".toList) modCEx = some ("test_a_b".toList) ∧
    specDerivedName ("test_a_test_b".toList) = "test_a_test_b".toList ∧
    hasAttrM modCEx ("test_a_test_b".toList) = true ∧
    isCallableAttr modCEx ("test_a_test_b".toList) = true ∧
    ("test_a_b".toList : Str) ≠ "test_a_test_b".toList := by
  decide

/-- C6: exceptions during load or invocation become failure results carrying
the exception text; results are a per-file map (one bad file cannot affect
another's result); the exit code is 0 iff there was at least one file and
every result passed; zero files yield the `No test cases found` error and
exit 1. -/
theorem C6_runner_exception_isolation (tcs : List TCase) :
    ((mainRun tcs).2.1 = 0 ↔ tcs ≠ [] ∧ ∀ r ∈ (mainRun tcs).1, r.2.1 = true) ∧
    (mainRun [] = ([], 1, true)) ∧
    ((mainRun tcs).1 = tcs.map (fun t => runTestCase t.stem t.path t.load t.invoke)) ∧
    (∀ stem path inv m, runTestCase stem path (LoadOutcome.raised m) inv =
        (stem, false, "Test execution error: " ++ m)) ∧
    (∀ stem path mod inv f m, selectTestFunc stem mod = some f →
        inv f = Except.error m →
        runTestCase stem path (LoadOutcome.loaded mod) inv =
          (stem, false, "Test execution error: " ++ m)) ∧
    (∀ m : String, ∃ pre, "Test execution error: " ++ m = pre ++ m) := by
  refine ⟨?_, rfl, ?_, ?_, ?_, fun m => ⟨"Test execution error: ", rfl⟩⟩
  · cases tcs with
    | nil => simp [mainRun]
    | cons t ts =>
      simp only [mainRun]
      by_cases hall :
          ((t :: ts).map (fun t => runTestCase t.stem t.path t.load t.invoke)).all
            (fun r => r.2.1) = true
      · rw [if_pos hall]
        simp only [List.all_eq_true] at hall
        refine iff_of_true rfl ⟨by simp, ?_⟩
        intro r hr
        exact hall r hr
      · rw [if_neg hall]
        simp only [List.all_eq_true] at hall
        refine iff_of_false (fun hc => Nat.one_ne_zero hc) ?_
        rintro ⟨-, hforall⟩
        exact hall fun x hx => hforall x hx
  · cases tcs with
    | nil => rfl
    | cons t ts => rfl
  · intro stem path inv m; rfl
  · intro stem path mod inv f m hsel hinv
    simp [runTestCase, hsel, hinv]

/-- C6 witness: an invocation exception becomes a failure result whose
message carries the exception text. -/
theorem C6_runner_exception_isolation_witness :
    runTestCase ("test_x".toList) "p" (LoadOutcome.loaded [("test_x".toList, true)])
      (fun _ => Except.error "kaboom") =
      ("test_x".toList, false, "Test execution error: " ++ "kaboom") :=
  (C6_runner_exception_isolation []).2.2.2.2.1 ("test_x".toList) "p"
    [("test_x".toList, true)] (fun _ => Except.error "kaboom")
    ("test_x".toList) "kaboom" (by decide) rfl

/-- C7: discovery returns exactly (as a multiset) the regular files of the
directory whose suffix is `.py` and whose name starts with `test_`, sorted
lexicographically; and the runner produces exactly one result per discovered
file, in order, named by the file's stem. -/
theorem C7_discovery_sorted (es : List DirEntry) (tcs : List TCase) :
    (discoverTestCases (some es)).Perm
      ((es.filter testCasePred).map DirEntry.name) ∧
    List.Sorted (· ≤ ·) (discoverTestCases (some es)) ∧
    (∀ n, n ∈ discoverTestCases (some es) ↔
        ∃ e, e ∈ es ∧ e.name = n ∧ e.isFile = true ∧
          pySuffix n = ".py".toList ∧ "test_".toList.isPrefixOf n = true) ∧
    ((mainRun tcs).1.length = tcs.length) ∧
    ((mainRun tcs).1.map (fun r => r.1) = tcs.map TCase.stem) := by
  refine ⟨List.perm_insertionSort _ _, List.sorted_insertionSort _ _, ?_, ?_, ?_⟩
  · intro n
    rw [show discoverTestCases (some es) =
        List.insertionSort (· ≤ ·) ((es.filter testCasePred).map DirEntry.name) from rfl,
      (List.perm_insertionSort _ _).mem_iff]
    simp only [List.mem_map, List.mem_filter]
    constructor
    · rintro ⟨e, ⟨he, hp⟩, rfl⟩
      simp only [testCasePred, Bool.and_eq_true, beq_iff_eq] at hp
      exact ⟨e, he, rfl, hp.1.1, hp.1.2, hp.2⟩
    · rintro ⟨e, he, rfl, h1, h2, h3⟩
      refine ⟨e, ⟨he, ?_⟩, rfl⟩
      simp only [testCasePred, Bool.and_eq_true, beq_iff_eq]
      exact ⟨⟨h1, h2⟩, h3⟩
  · cases tcs with
    | nil => rfl
    | cons t ts => simp [mainRun]
  · cases tcs with
    | nil => rfl
    | cons t ts => simp [mainRun, runTestCase_fst]

/-- C7 witness: a single matching file is discovered. -/
theorem C7_discovery_sorted_witness :
    "test_a.py".toList ∈ discoverTestCases (some [⟨"test_a.py".toList, true⟩]) := by
  apply ((C7_discovery_sorted [⟨"test_a.py".toList, true⟩] []).2.2.1
    ("test_a.py".toList)).mpr
  refine ⟨⟨"test_a.py".toList, true⟩, ?_, rfl, rfl, ?_, ?_⟩
  · exact List.mem_singleton.mpr rfl
  · decide
  · decide
